import Mathlib

/-!
Shallow embedding of `src/spiders/question_finder.py` (an authenticated
Scrapy crawler for an Open edX instance), for checking the repository
specification against the code.

Modelling conventions:
- URLs are modelled in parsed form (scheme, host, path, query pairs),
  which is the semantic content the `URLObject` builders manipulate
  (`with_hostname`, `with_path`, `set_query_param`, `.path`, `.query_dict`).
- A Scrapy response is modelled by the fields the spider reads: its
  (parsed) URL, its body text, the first `//title/text()` extraction
  result, and the decoded `Set-Cookie` header values.
- Each spider callback is a function returning `Except Unit (List Effect)`:
  `Except.error ()` models an uncaught Python exception (the generator
  raising before yielding), and an `Effect` is an emitted request, an
  emitted item, or a log call.
- String scanning (`startswith`, the `in` operator, the two `re` patterns)
  is modelled on `List Char` via executable functions defined below.
-/

deriving instance DecidableEq for Except

/-- Path constant `LOGIN_HTML_PATH = "/login"` from the source. -/
def LOGIN_HTML_PATH : String := "/login"

/-- Path constant `LOGIN_API_PATH` from the source. -/
def LOGIN_API_PATH : String := "/user_api/v1/account/login_session/"

/-- Path constant `COURSE_BLOCKS_API_PATH` from the source. -/
def COURSE_BLOCKS_API_PATH : String := "/api/courses/v1/blocks/"

/-- ASCII apostrophe, written by code point. -/
def apos : Char := Char.ofNat 39

/-- Constant `LOGIN_FAILURE_MSG` from the source: the documented
login-failure phrase (contains an apostrophe, built by code point). -/
def LOGIN_FAILURE_MSG : String :=
  "We couldn" ++ String.singleton apos ++ "t sign you in."

/-- Error message logged by `after_initial_login` on a failed login
(also used by `handle_error` for 401/403, not modelled here). -/
def CREDENTIALS_FAILED_MSG : String :=
  "Credentials failed. Either add/update the current credentials " ++
  "or remove them to enable auto auth"

/-- Parsed URL: the semantic content manipulated by the URLObject
builders in the source (`with_hostname`, `with_path`, `set_query_param`)
and read back by `.path` and `.query_dict`. -/
structure Url where
  scheme : String
  host : String
  path : String
  query : List (String × String)
deriving DecidableEq, Repr

/-- Python `query_dict.get(k)`: the query dict maps each key to its last
value in the query string, and `.get` returns `None` when absent. -/
def query_dict_get (q : List (String × String)) (k : String) : Option String :=
  ((q.filter (fun p => p.1 == k)).getLast?).map (fun p => p.2)

/-- Spider configuration: the `__init__` arguments the modelled code
paths read (`domain`, `email`, `password`, `course_key`). -/
structure Config where
  domain : String
  login_email : String
  login_password : String
  course_key : String
deriving DecidableEq, Repr

/-- Default configuration from the `__init__` signature in the source. -/
def default_config : Config :=
  { domain := "jzoldak.sandbox.edx.org"
    login_email := "myoungstrom@edx.org"
    login_password := "victor"
    course_key := "course-v1:edX+Test101+course" }

/-- A Scrapy response, reduced to the fields the spider reads:
parsed URL, body text (`response.text`), the
`response.xpath("//title/text()").extract_first()` result (the external
parse engine is out of scope, so the extraction result is a field), and
the decoded values of the `Set-Cookie` headers. -/
structure Response where
  url : Url
  body : String
  title : Option String
  set_cookie_headers : List String
deriving DecidableEq, Repr

/-- HTTP method of an emitted request (`scrapy.Request` is a GET,
`scrapy.FormRequest` is a form POST). -/
inductive Method where
  | GET
  | POST
deriving DecidableEq, Repr

/-- Callback attached to an emitted request, named after the spider
method it designates (`parse` is the CrawlSpider default used by
`make_requests_from_url`). -/
inductive Callback where
  | after_initial_csrf
  | after_initial_login
  | after_login
  | parse
deriving DecidableEq, Repr

/-- An outgoing request as the spider builds it: method, URL, form data
(for `FormRequest`), headers (the `X-CSRFToken` value is an
`Option String` because the extracted token may be Python `None`), and
callback. Every request in the source also carries
`errback=self.handle_error`; that is uniform, so it is not a field. -/
structure Request where
  method : Method
  url : Url
  formdata : List (String × String)
  headers : List (String × Option String)
  callback : Callback
deriving DecidableEq, Repr

/-- Modelled from the spec: the item class `VictorBotScraperItem` lives in
`victor_bot_scraper/items.py`, which is not under `src/`. The spec gives
the output record as `{url, request_headers, accessed_at, page_title}`
with a nullable title. A Scrapy item field is unset unless the
constructor receives it, so every field is wrapped in `Option`, where
`none` means the field was never set; `page_title = some none` means the
field was set to Python `None`. -/
structure VictorBotScraperItem where
  url : Option Url
  request_headers : Option (List (String × String))
  accessed_at : Option Nat
  page_title : Option (Option String)
deriving DecidableEq, Repr

/-- One observable effect of running a spider callback: an emitted
request, an emitted item, or a logger call. -/
inductive Effect where
  | req (r : Request)
  | item (i : VictorBotScraperItem)
  | log_error (msg : String)
  | log_info (msg : String)
deriving DecidableEq, Repr

/-- Requests among a list of effects. -/
def effect_requests (es : List Effect) : List Request :=
  es.filterMap (fun e => match e with | .req r => some r | _ => none)

/-- Items among a list of effects. -/
def effect_items (es : List Effect) : List VictorBotScraperItem :=
  es.filterMap (fun e => match e with | .item i => some i | _ => none)

/-- Error-log calls among a list of effects. -/
def effect_error_logs (es : List Effect) : List String :=
  es.filterMap (fun e => match e with | .log_error m => some m | _ => none)

/-- Substring search on character lists: does `pat` occur (contiguously)
anywhere in `l`? This is the semantics of both the Python `in` operator
on strings and an unanchored `re.search` for a literal pattern. -/
def has_substr (pat : List Char) : List Char → Bool
  | [] => pat.isEmpty
  | c :: t => pat.isPrefixOf (c :: t) || has_substr pat t

/-- Python substring test `pat in s`. -/
def str_contains (s pat : String) : Bool :=
  has_substr pat.data s.data

/-- Python `h.startswith("csrftoken=")`. -/
def starts_with_csrftoken (h : String) : Bool :=
  "csrftoken=".data.isPrefixOf h.data

/-- Character class `[^ ;]` of the token regex. -/
def csrf_value_char (c : Char) : Bool :=
  !(c == ' ' || c == ';')

/-- Regex fragment `([^ ;]+);` matched at the start of `l`: a maximal
nonempty run of characters outside `{space, semicolon}` must be followed
immediately by a semicolon; the captured group is the run. (A shorter
run cannot match under backtracking, because the character after it
would be a run character, never a semicolon.) -/
def token_run (l : List Char) : Option (List Char) :=
  let run := l.takeWhile csrf_value_char
  if run.isEmpty then none
  else
    match l.drop run.length with
    | c :: _ => if c == ';' then some run else none
    | [] => none

/-- Python `re.match("csrftoken=([^ ;]+);", h)` followed by `.group(1)`,
as an `Option`: `none` models the match failing (so that `.group(1)`
would raise `AttributeError`). The literal `csrftoken=` is 10 characters,
hence the `drop 10`. -/
def csrf_regex_match (h : String) : Option String :=
  if starts_with_csrftoken h then
    (token_run (h.data.drop 10)).map (fun l => String.mk l)
  else none

/-- Function `get_csrf_token` from the source, over the decoded
`Set-Cookie` header values. `Except.ok none` models returning Python
`None` (no cookies at all, or no `csrftoken=` entry); `Except.error ()`
models the `AttributeError` raised by `match.group(1)` when the regex
does not match the last `csrftoken=` entry. -/
def get_csrf_token (cookie_headers : List String) : Except Unit (Option String) :=
  if cookie_headers.isEmpty then Except.ok none
  else
    let csrf_headers := cookie_headers.filter starts_with_csrftoken
    match csrf_headers.getLast? with
    | none => Except.ok none
    | some h =>
      match csrf_regex_match h with
      | some tok => Except.ok (some tok)
      | none => Except.error ()

/-- Deny pattern `r"/logout/"` of the LinkExtractor, applied by
`re.search` to the link URL: a literal substring match. -/
def deny_logout (u : String) : Bool :=
  str_contains u "/logout/"

/-- Deny pattern `r"\?_accept=application/x-tgz"`: after unescaping,
a literal substring match for `?_accept=application/x-tgz`. -/
def deny_tgz (u : String) : Bool :=
  str_contains u "?_accept=application/x-tgz"

/-- Regex `://[^/]+/xblock/` matched at the start of `l`: the literal
`://`, then a nonempty run of non-slash characters, then the literal
`/xblock/`. Because every character the `[^/]+` consumes is a non-slash,
the slash opening `/xblock/` must be the first slash after `://`, so the
match succeeds exactly when the first slash-delimited segment after
`://` is nonempty and is followed by `xblock/`. -/
def xblock_match_here (l : List Char) : Bool :=
  "://".data.isPrefixOf l &&
  (let r := l.drop 3
   match r.takeWhile (fun c => !(c == '/')) with
   | [] => false
   | _ :: _ => "/xblock/".data.isPrefixOf (r.dropWhile (fun c => !(c == '/'))))

/-- Unanchored `re.search` for a pattern given as an anchored matcher:
try the matcher at every suffix. -/
def search_anywhere (p : List Char → Bool) : List Char → Bool
  | [] => p []
  | c :: t => p (c :: t) || search_anywhere p t

/-- Deny pattern `r"://[^/]+/xblock/"` of the LinkExtractor: it only
fires when `/xblock/` opens the URL path (immediately after the host),
not when `xblock` appears as a later path segment. -/
def deny_xblock (u : String) : Bool :=
  search_anywhere xblock_match_here u.data

/-- A link URL matches some deny pattern of the LinkExtractor rule. -/
def deny_any (u : String) : Bool :=
  deny_logout u || deny_xblock u || deny_tgz u

/-- Link Policy of the spider: the LinkExtractor rule with the three
deny patterns and `unique=True`, combined with the crawl-wide duplicate
filter. `seen` is the visited-or-frontier set (as a list); an accepted
link immediately joins it, which models both within-page dedup
(`unique=True`) and the global never-enqueue-twice filter. Source order
is preserved. -/
def link_policy (seen : List String) : List String → List String
  | [] => []
  | l :: rest =>
    if deny_any l || seen.contains l then link_policy seen rest
    else l :: link_policy (l :: seen) rest

/-- The hardcoded start URL assigned by `__init__`
(`https://jzoldak.sandbox.edx.org/courses/course-v1:edX+Test101+course/info`),
in parsed form. -/
def HARDCODED_SEED : Url :=
  { scheme := "https"
    host := "jzoldak.sandbox.edx.org"
    path := "/courses/course-v1:edX+Test101+course/info"
    query := [] }

/-- The `api_url` value that `__init__` computes from `domain` and
`course_key` (and then never uses): the course-blocks API URL. -/
def init_api_url (domain course_key : String) : Url :=
  { scheme := "http"
    host := domain
    path := COURSE_BLOCKS_API_PATH
    query := [("course_id", course_key), ("depth", "all"), ("all_blocks", "true")] }

/-- The `start_urls` list assigned by `__init__`. The assignment in the
source is the hardcoded literal; `domain` and `course_key` are taken as
arguments to record that the assignment ignores them. -/
def spider_start_urls (_domain _course_key : String) : List Url :=
  [HARDCODED_SEED]

/-- Method `start_requests` of the spider: with both credentials
non-empty (Python truthiness on strings), emit one GET of the login
page with callback `after_initial_csrf`; otherwise only log. -/
def start_requests (cfg : Config) : List Effect :=
  if cfg.login_email ≠ "" ∧ cfg.login_password ≠ "" then
    [Effect.req
      { method := Method.GET
        url := { scheme := "http", host := cfg.domain, path := LOGIN_HTML_PATH, query := [] }
        formdata := []
        headers := []
        callback := Callback.after_initial_csrf }]
  else
    [Effect.log_info "Please enter valid email/password combination"]

/-- Method `after_initial_csrf` of the spider: extract the token from
the response and emit one FormRequest (form POST) of the credentials to
the login API URL, with header `X-CSRFToken`, callback
`after_initial_login`. An `AttributeError` in `get_csrf_token`
propagates (the generator raises before yielding). -/
def after_initial_csrf (cfg : Config) (resp : Response) : Except Unit (List Effect) := do
  let token ← get_csrf_token resp.set_cookie_headers
  pure [Effect.req
    { method := Method.POST
      url := { scheme := "http", host := cfg.domain, path := LOGIN_API_PATH, query := [] }
      formdata := [("email", cfg.login_email), ("password", cfg.login_password)]
      headers := [("X-CSRFToken", token)]
      callback := Callback.after_initial_login }]

/-- Scrapy `make_requests_from_url`: a plain GET with the CrawlSpider
default callback `parse` (which applies the rules / link policy). -/
def make_requests_from_url (u : Url) : Request :=
  { method := Method.GET, url := u, formdata := [], headers := [], callback := Callback.parse }

/-- Method `after_initial_login` of the spider: if the body contains the
login-failure phrase, log one error and emit nothing further; otherwise
log success and emit one request per entry of `self.start_urls`. -/
def after_initial_login (cfg : Config) (body : String) : List Effect :=
  if str_contains body LOGIN_FAILURE_MSG then
    [Effect.log_error CREDENTIALS_FAILED_MSG]
  else
    Effect.log_info "successfully completed initial login" ::
      (spider_start_urls cfg.domain cfg.course_key).map
        (fun u => Effect.req (make_requests_from_url u))

/-- Method `handle_unexpected_redirect_to_login_page` of the spider:
read the `next` query parameter of the redirect URL; build the login API
URL, adding `next=<that value>` only when the value is truthy (a
non-empty string); emit one FormRequest (form POST) of the credentials
to it, with header `X-CSRFToken` extracted from this same response,
callback `after_login`. An `AttributeError` in `get_csrf_token`
propagates. -/
def handle_unexpected_redirect_to_login_page (cfg : Config) (resp : Response) :
    Except Unit (List Effect) := do
  let next_url := query_dict_get resp.url.query "next"
  let base : Url := { scheme := "http", host := cfg.domain, path := LOGIN_API_PATH, query := [] }
  let login_url :=
    match next_url with
    | some s => if s = "" then base else { base with query := [("next", s)] }
    | none => base
  let token ← get_csrf_token resp.set_cookie_headers
  pure [Effect.req
    { method := Method.POST
      url := login_url
      formdata := [("email", cfg.login_email), ("password", cfg.login_password)]
      headers := [("X-CSRFToken", token)]
      callback := Callback.after_login }]

/-- Python `title.strip()` whitespace set (the six ASCII whitespace
characters Python strips; the Unicode cases are not exercised here). -/
def py_space (c : Char) : Bool :=
  c == ' ' || c == '\t' || c == '\n' || c == '\r' ||
    c == Char.ofNat 11 || c == Char.ofNat 12

/-- Python `s.strip()`: drop leading and trailing whitespace. -/
def py_strip (s : String) : String :=
  String.mk (((s.data.dropWhile py_space).reverse.dropWhile py_space).reverse)

/-- The item constructed by `parse_item`:
`VictorBotScraperItem(url=response.url, page_title=title)` with `title`
first stripped when truthy. Only `url` and `page_title` are passed to
the constructor; `request_headers` and `accessed_at` are never set. -/
def parse_item_record (resp : Response) : VictorBotScraperItem :=
  let title : Option String :=
    match resp.title with
    | some t => some (if t = "" then t else py_strip t)
    | none => none
  { url := some resp.url
    request_headers := none
    accessed_at := none
    page_title := some title }

/-- Method `parse_item` of the spider: when the response URL path equals
the login page path, first yield every request of
`handle_unexpected_redirect_to_login_page`; then (there is no early
return) build the item and yield it unconditionally. -/
def parse_item (cfg : Config) (resp : Response) : Except Unit (List Effect) := do
  let reqs ←
    if resp.url.path = LOGIN_HTML_PATH then
      handle_unexpected_redirect_to_login_page cfg resp
    else
      pure []
  pure (reqs ++ [Effect.item (parse_item_record resp)])

/-- Method `after_login` of the spider: delegate every yielded value to
`parse_item` unchanged (the body performs no failure-phrase check and no
logging). -/
def after_login (cfg : Config) (resp : Response) : Except Unit (List Effect) :=
  parse_item cfg resp

/-! Concrete inputs used by counterexamples and witnesses. -/

/-- A login-page response (path `/login`) carrying a valid token cookie
and a `next` query parameter, as produced by a forced logout mid-crawl. -/
def resp_login_tok : Response :=
  { url :=
      { scheme := "https"
        host := "jzoldak.sandbox.edx.org"
        path := "/login"
        query := [("next", "/courses/course-v1:edX+Test101+course/courseware")] }
    body := "<html><body>Sign in</body></html>"
    title := some "Sign in"
    set_cookie_headers := ["csrftoken=TOKEN1; Path=/"] }

/-- A login-page response whose `next` query parameter is present but
empty. -/
def resp_login_empty_next : Response :=
  { url :=
      { scheme := "https"
        host := "jzoldak.sandbox.edx.org"
        path := "/login"
        query := [("next", "")] }
    body := "<html><body>Sign in</body></html>"
    title := some "Sign in"
    set_cookie_headers := ["csrftoken=TOKEN2; Path=/"] }

/-- A re-authentication login response whose body contains the
documented login-failure phrase (its URL is the login API URL, whose
path differs from the login page path). -/
def resp_reauth_fail : Response :=
  { url :=
      { scheme := "http"
        host := "jzoldak.sandbox.edx.org"
        path := "/user_api/v1/account/login_session/"
        query := [] }
    body := "<html>" ++ LOGIN_FAILURE_MSG ++ "</html>"
    title := some "Sign in"
    set_cookie_headers := [] }

/-- An ordinary crawled course page. -/
def resp_course_page : Response :=
  { url :=
      { scheme := "https"
        host := "jzoldak.sandbox.edx.org"
        path := "/courses/course-v1:edX+Test101+course/info"
        query := [] }
    body := "<html><title>  Course Info  </title></html>"
    title := some "  Course Info  "
    set_cookie_headers := [] }

/-- The re-authentication login request the spider builds for
`resp_login_tok` under the default configuration: a form POST to the
login API URL carrying the recovered `next` parameter, the token from
the redirect response, and callback `after_login`. -/
def reauth_request_example : Request :=
  { method := Method.POST
    url :=
      { scheme := "http"
        host := "jzoldak.sandbox.edx.org"
        path := "/user_api/v1/account/login_session/"
        query := [("next", "/courses/course-v1:edX+Test101+course/courseware")] }
    formdata := [("email", "myoungstrom@edx.org"), ("password", "victor")]
    headers := [("X-CSRFToken", some "TOKEN1")]
    callback := Callback.after_login }

/-! Helper lemmas. -/

/-- A list is a prefix (in the Boolean sense) of itself followed by
anything. -/
theorem isPrefixOf_append_self (l₁ l₂ : List Char) : l₁.isPrefixOf (l₁ ++ l₂) = true := by
  simp [List.isPrefixOf_iff_prefix]

/-- The regex fragment matcher on a valid value terminated by a
semicolon: it captures exactly the value. -/
theorem token_run_append_semi (v rest : List Char) (hv : v ≠ [])
    (hchars : ∀ c ∈ v, csrf_value_char c = true) :
    token_run (v ++ ';' :: rest) = some v := by
  have hrun : (v ++ ';' :: rest).takeWhile csrf_value_char = v := by
    rw [List.takeWhile_append_of_pos hchars]
    simp [List.takeWhile_cons, csrf_value_char]
  unfold token_run
  rw [hrun]
  simp [List.isEmpty_iff, hv, List.drop_left]

/-- The regex fragment matcher on a valid value terminated by the end of
the header: no semicolon follows, so the match fails. -/
theorem token_run_no_semi (v : List Char)
    (hchars : ∀ c ∈ v, csrf_value_char c = true) :
    token_run v = none := by
  have hrun : v.takeWhile csrf_value_char = v := by
    conv in v.takeWhile _ => rw [← List.append_nil v]
    rw [List.takeWhile_append_of_pos hchars]
    simp
  unfold token_run
  rw [hrun]
  by_cases hv : v = []
  · subst hv; rfl
  · simp [List.isEmpty_iff, hv, List.drop_length]

/-- The regex fragment matcher on a valid value terminated by a space:
the character after the run is not a semicolon, so the match fails. -/
theorem token_run_append_space (v rest : List Char)
    (hchars : ∀ c ∈ v, csrf_value_char c = true) :
    token_run (v ++ ' ' :: rest) = none := by
  have hrun : (v ++ ' ' :: rest).takeWhile csrf_value_char = v := by
    rw [List.takeWhile_append_of_pos hchars]
    simp [List.takeWhile_cons, csrf_value_char]
  unfold token_run
  rw [hrun]
  by_cases hv : v = []
  · subst hv; rfl
  · simp [List.isEmpty_iff, hv, List.drop_left]

/-- The extractor on a single matching header reduces to the regex
match on that header. -/
theorem get_csrf_token_single (h : String) (hp : starts_with_csrftoken h = true) :
    get_csrf_token [h] =
      match csrf_regex_match h with
      | some tok => Except.ok (some tok)
      | none => Except.error () := by
  simp [get_csrf_token, hp]

/-- The regex step on a header that is the literal `csrftoken=` followed
by `X` reduces to the fragment matcher on `X`. -/
theorem csrf_regex_match_mk (X : List Char) :
    csrf_regex_match (String.mk ("csrftoken=".data ++ X)) =
      (token_run X).map (fun l => String.mk l) := by
  have hp : starts_with_csrftoken (String.mk ("csrftoken=".data ++ X)) = true :=
    isPrefixOf_append_self _ _
  unfold csrf_regex_match
  rw [hp]
  simp only [if_true]
  have hdrop : ((String.mk ("csrftoken=".data ++ X)).data).drop 10 = X :=
    List.drop_left' (by decide)
  rw [hdrop]

/-- C9: for every set of response cookie-header values, if no entry
begins with `csrftoken=` (in particular if the set is empty) the
extractor returns the distinct no-token value (`ok none`, modelling
Python `None`) rather than an error; and the result is always determined
by the last entry beginning with `csrftoken=` alone (last write wins),
so with multiple matching entries the token is parsed from the last
one. -/
theorem get_csrf_token_absent_and_last_wins (hs : List String) :
    (hs.filter starts_with_csrftoken = [] → get_csrf_token hs = Except.ok none) ∧
    (∀ m, (hs.filter starts_with_csrftoken).getLast? = some m →
      get_csrf_token hs = get_csrf_token [m]) := by
  constructor
  · intro hfil
    cases hs with
    | nil => rfl
    | cons a t => simp [get_csrf_token, hfil]
  · intro m hm
    have hmem : m ∈ hs.filter starts_with_csrftoken := List.mem_of_getLast?_eq_some hm
    have hpm : starts_with_csrftoken m = true := (List.mem_filter.mp hmem).2
    have hne : hs ≠ [] := by
      intro h
      subst h
      simp at hmem
    cases hs with
    | nil => exact absurd rfl hne
    | cons a t => simp [get_csrf_token, hm, hpm]

/-- C9 witness: a set with no matching entry yields `ok none`; a set
with two `csrftoken=` entries is decided by the last one, whose value
`BBB` is returned. -/
theorem get_csrf_token_absent_and_last_wins_witness :
    get_csrf_token ["sessionid=x; y"] = Except.ok none ∧
    get_csrf_token ["csrftoken=AAA; x", "sessionid=s", "csrftoken=BBB; y"] =
      get_csrf_token ["csrftoken=BBB; y"] ∧
    get_csrf_token ["csrftoken=BBB; y"] = Except.ok (some "BBB") :=
  ⟨(get_csrf_token_absent_and_last_wins ["sessionid=x; y"]).1 (by decide),
   (get_csrf_token_absent_and_last_wins
      ["csrftoken=AAA; x", "sessionid=s", "csrftoken=BBB; y"]).2
      "csrftoken=BBB; y" (by decide),
   by decide⟩

/-- C10 counterexample: the claim says extraction is total on entries
that begin with the token cookie name, including values terminated by
end-of-string, and returns the value; but on the header
`csrftoken=abc123` (no semicolon after the value) the regex
`csrftoken=([^ ;]+);` fails to match, `match.group(1)` raises
`AttributeError`, and the extractor errors instead of returning
`abc123`. -/
theorem get_csrf_token_end_of_header_error :
    starts_with_csrftoken "csrftoken=abc123" = true ∧
    get_csrf_token ["csrftoken=abc123"] = Except.error () := by decide

/-- C10 amended: extraction on a header whose last `csrftoken=` entry
carries a nonempty value (characters outside space and semicolon)
succeeds only when a semicolon immediately follows the value, returning
exactly that value; when the value is terminated by end-of-string or by
a space instead, the extractor raises (models `AttributeError`) rather
than returning. The scenario header `csrftoken=abc123; Path=/` is the
semicolon-terminated case and returns `abc123`. -/
theorem get_csrf_token_requires_semicolon (v rest : String)
    (hv : v.data ≠ []) (hchars : ∀ c ∈ v.data, csrf_value_char c = true) :
    get_csrf_token [String.mk ("csrftoken=".data ++ (v.data ++ ';' :: rest.data))] =
      Except.ok (some v) ∧
    get_csrf_token [String.mk ("csrftoken=".data ++ v.data)] = Except.error () ∧
    get_csrf_token [String.mk ("csrftoken=".data ++ (v.data ++ ' ' :: rest.data))] =
      Except.error () := by
  refine ⟨?_, ?_, ?_⟩
  · rw [get_csrf_token_single _ (isPrefixOf_append_self _ _), csrf_regex_match_mk,
      token_run_append_semi v.data rest.data hv hchars]
    rfl
  · rw [get_csrf_token_single _ (isPrefixOf_append_self _ _), csrf_regex_match_mk,
      token_run_no_semi v.data hchars]
    rfl
  · rw [get_csrf_token_single _ (isPrefixOf_append_self _ _), csrf_regex_match_mk,
      token_run_append_space v.data rest.data hchars]
    rfl

/-- C10 amended witness: instantiated at the spec scenario header
`csrftoken=abc123; Path=/`, which the theorem maps to `ok (some
"abc123")`, and at its end-of-string variant, which errors. -/
theorem get_csrf_token_requires_semicolon_witness :
    ("abc123" : String).data ≠ [] ∧
    String.mk ("csrftoken=".data ++ (("abc123" : String).data ++ ';' :: (" Path=/" : String).data)) =
      "csrftoken=abc123; Path=/" ∧
    get_csrf_token
      [String.mk ("csrftoken=".data ++ (("abc123" : String).data ++ ';' :: (" Path=/" : String).data))] =
      Except.ok (some "abc123") ∧
    get_csrf_token [String.mk ("csrftoken=".data ++ ("abc123" : String).data)] =
      Except.error () :=
  ⟨by decide, by decide,
   (get_csrf_token_requires_semicolon "abc123" " Path=/" (by decide) (by decide)).1,
   (get_csrf_token_requires_semicolon "abc123" " Path=/" (by decide) (by decide)).2.1⟩

/-- C8: the initial-login-result handler emits no requests and logs
exactly one error when the response body contains the exact substring
of `LOGIN_FAILURE_MSG`, and otherwise logs no error and emits exactly
one request per entry of the configured start-URL list (each a GET with
the CrawlSpider default callback). -/
theorem after_initial_login_halt_or_fan_out (cfg : Config) (body : String) :
    (str_contains body LOGIN_FAILURE_MSG = true →
      effect_requests (after_initial_login cfg body) = [] ∧
      effect_error_logs (after_initial_login cfg body) = [CREDENTIALS_FAILED_MSG]) ∧
    (str_contains body LOGIN_FAILURE_MSG = false →
      effect_requests (after_initial_login cfg body) =
        (spider_start_urls cfg.domain cfg.course_key).map make_requests_from_url ∧
      effect_error_logs (after_initial_login cfg body) = []) := by
  constructor
  · intro h
    simp [after_initial_login, h, effect_requests, effect_error_logs]
  · intro h
    simp [after_initial_login, h, effect_requests, effect_error_logs,
      spider_start_urls, make_requests_from_url]

/-- C8 witness: on a body containing the failure phrase the handler
emits no request and one error log; on a clean body it emits one GET per
configured start URL. -/
theorem after_initial_login_halt_or_fan_out_witness :
    (effect_requests (after_initial_login default_config ("x " ++ LOGIN_FAILURE_MSG ++ " y")) = [] ∧
     effect_error_logs (after_initial_login default_config ("x " ++ LOGIN_FAILURE_MSG ++ " y")) =
       [CREDENTIALS_FAILED_MSG]) ∧
    (effect_requests (after_initial_login default_config "welcome") =
       (spider_start_urls default_config.domain default_config.course_key).map
         make_requests_from_url ∧
     effect_error_logs (after_initial_login default_config "welcome") = []) :=
  ⟨(after_initial_login_halt_or_fan_out default_config ("x " ++ LOGIN_FAILURE_MSG ++ " y")).1
      (by decide),
   (after_initial_login_halt_or_fan_out default_config "welcome").2 (by decide)⟩

/-- C7 counterexample: the claim says the link policy never returns a
link whose path contains `/xblock/` anywhere; but the deny regex
`://[^/]+/xblock/` only fires when `xblock` is the first path segment
after the host, so the link `https://host/courses/xblock/view` (whose
path does contain `/xblock/`) passes the policy and is returned. -/
theorem link_policy_deep_xblock_not_excluded :
    str_contains "https://host/courses/xblock/view" "/xblock/" = true ∧
    link_policy [] ["https://host/courses/xblock/view"] =
      ["https://host/courses/xblock/view"] := by decide

/-- C7 amended: for all link sets, the link policy never returns a link
whose URL matches the logout deny pattern, the xblock deny pattern
(which anchors `/xblock/` to the path segment immediately after the
host, rather than anywhere in the path), or the archive deny pattern,
and never returns a link already in the visited-or-frontier set. -/
theorem link_policy_exclusions (seen links : List String) :
    ∀ u ∈ link_policy seen links,
      deny_logout u = false ∧ deny_xblock u = false ∧ deny_tgz u = false ∧ u ∉ seen := by
  induction links generalizing seen with
  | nil => intro u hu; simp [link_policy] at hu
  | cons l rest ih =>
    intro u hu
    unfold link_policy at hu
    by_cases hacc : (deny_any l || seen.contains l) = true
    · rw [if_pos hacc] at hu
      exact ih seen u hu
    · rw [if_neg hacc] at hu
      simp only [Bool.or_eq_true, not_or, Bool.not_eq_true, List.contains,
        List.elem_eq_mem, decide_eq_false_iff_not] at hacc
      obtain ⟨hda, hseen⟩ := hacc
      have hda3 : deny_logout l = false ∧ deny_xblock l = false ∧ deny_tgz l = false := by
        cases h1 : deny_logout l <;> cases h2 : deny_xblock l <;> cases h3 : deny_tgz l <;>
          simp_all [deny_any]
      cases hu with
      | head => exact ⟨hda3.1, hda3.2.1, hda3.2.2, hseen⟩
      | tail _ htail =>
        have hrec := ih (l :: seen) u htail
        exact ⟨hrec.1, hrec.2.1, hrec.2.2.1, fun hmem => hrec.2.2.2 (List.mem_cons_of_mem l hmem)⟩

/-- C7 amended witness: a concrete run in which a logout link, a
duplicate, and an already-seen link are dropped while a clean link
passes; the theorem applied to the passing link certifies the exclusion
conditions. -/
theorem link_policy_exclusions_witness :
    "https://host/page" ∈
      link_policy ["https://host/old"]
        ["https://h/logout/a", "https://host/page", "https://host/old", "https://host/page"] ∧
    (deny_logout "https://host/page" = false ∧ deny_xblock "https://host/page" = false ∧
     deny_tgz "https://host/page" = false ∧ "https://host/page" ∉ ["https://host/old"]) :=
  ⟨by decide,
   link_policy_exclusions ["https://host/old"]
     ["https://h/logout/a", "https://host/page", "https://host/old", "https://host/page"]
     "https://host/page" (by decide)⟩

/-- C6: the claim says the seed URL is derived from the configured
course key and domain; but `__init__` assigns the hardcoded literal
start URL, ignoring both arguments (the course-blocks `api_url` it
computes from them is never used). Evaluated at the failing input
(domain `example.com`, a different course key), the start-URL list is
still the default-course URL on `jzoldak.sandbox.edx.org`, identical to
the list for the default configuration, while the unused computed URL
does track the configuration. -/
theorem start_urls_ignore_configuration :
    spider_start_urls "example.com" "course-v1:Other+Course+run" = [HARDCODED_SEED] ∧
    spider_start_urls "example.com" "course-v1:Other+Course+run" =
      spider_start_urls default_config.domain default_config.course_key ∧
    HARDCODED_SEED.host = "jzoldak.sandbox.edx.org" ∧
    HARDCODED_SEED.path = "/courses/course-v1:edX+Test101+course/info" ∧
    (init_api_url "example.com" "course-v1:Other+Course+run").host = "example.com" := by
  decide

/-- C5: the claim (and the `@scrapes url request_headers accessed_at
page_title` contract in the docstring of `parse_item`) says every
emitted Page Record carries all four fields; but the constructor call
passes only `url` and `page_title`, so on an ordinary page the emitted
item has `request_headers` and `accessed_at` unset (while the title is
correctly trimmed). -/
theorem page_record_missing_headers_and_timestamp :
    parse_item default_config resp_course_page =
      Except.ok [Effect.item
        { url := some resp_course_page.url
          request_headers := none
          accessed_at := none
          page_title := some (some "Course Info") }] := by decide

/-- C1 counterexample: the claim says no Page Record is emitted for a
response whose resolved path equals the login page path; but
`parse_item` has no early return after delegating to the re-auth
sub-sequence, so for the login-page response `resp_login_tok` it still
emits one item. -/
theorem parse_item_login_page_still_emits_record :
    resp_login_tok.url.path = LOGIN_HTML_PATH ∧
    (parse_item default_config resp_login_tok).map (fun es => (effect_items es).length) =
      Except.ok 1 := by decide

/-- C1 amended: for a response whose resolved path equals the login
page path, `parse_item` delegates to the re-authentication sub-sequence
(yields its requests first) and ALSO emits one Page Record for that
response; a record is emitted for every successfully handled response,
login pages included, not only for non-login pages. -/
theorem parse_item_delegates_and_still_emits (cfg : Config) (resp : Response) :
    (∀ reqs, resp.url.path = LOGIN_HTML_PATH →
      handle_unexpected_redirect_to_login_page cfg resp = Except.ok reqs →
      parse_item cfg resp = Except.ok (reqs ++ [Effect.item (parse_item_record resp)])) ∧
    (resp.url.path ≠ LOGIN_HTML_PATH →
      parse_item cfg resp = Except.ok [Effect.item (parse_item_record resp)]) := by
  constructor
  · intro reqs hpath hre
    simp [parse_item, hpath, hre]
  · intro hpath
    simp [parse_item, hpath]
    rfl

/-- C1 amended witness: on the concrete login-page response the spider
yields the re-auth request followed by a Page Record; on an ordinary
course page it yields the record alone. -/
theorem parse_item_delegates_and_still_emits_witness :
    (resp_login_tok.url.path = LOGIN_HTML_PATH ∧
     handle_unexpected_redirect_to_login_page default_config resp_login_tok =
       Except.ok [Effect.req reauth_request_example] ∧
     parse_item default_config resp_login_tok =
       Except.ok ([Effect.req reauth_request_example] ++
         [Effect.item (parse_item_record resp_login_tok)])) ∧
    (resp_course_page.url.path ≠ LOGIN_HTML_PATH ∧
     parse_item default_config resp_course_page =
       Except.ok [Effect.item (parse_item_record resp_course_page)]) :=
  ⟨⟨by decide, by decide,
    (parse_item_delegates_and_still_emits default_config resp_login_tok).1
      [Effect.req reauth_request_example] (by decide) (by decide)⟩,
   ⟨by decide,
    (parse_item_delegates_and_still_emits default_config resp_course_page).2 (by decide)⟩⟩

/-- C2 counterexample: on the login-redirect response whose `next`
query parameter is present but empty, the claim requires the emitted
login form request to carry `next=`; but `if next_url:` treats the
empty string as absent, so the emitted request carries no `next`
parameter. -/
theorem reauth_empty_next_dropped :
    query_dict_get resp_login_empty_next.url.query "next" = some "" ∧
    (handle_unexpected_redirect_to_login_page default_config resp_login_empty_next).map
      (fun es => (effect_requests es).map (fun r => query_dict_get r.url.query "next")) =
      Except.ok [none] := by decide

/-- C2 amended: when token extraction succeeds, the re-authentication
operation emits one login form request to the login API path; the
`next` query parameter recovered from the redirect URL is set on that
request exactly when it is present AND non-empty, and the request
carries no `next` parameter when the recovered value is absent or
empty. -/
theorem reauth_next_param_threading (cfg : Config) (resp : Response) (t : Option String)
    (ht : get_csrf_token resp.set_cookie_headers = Except.ok t) :
    (∀ s, query_dict_get resp.url.query "next" = some s → s ≠ "" →
      ∃ r, handle_unexpected_redirect_to_login_page cfg resp = Except.ok [Effect.req r] ∧
        r.url.path = LOGIN_API_PATH ∧ query_dict_get r.url.query "next" = some s) ∧
    ((query_dict_get resp.url.query "next" = none ∨
      query_dict_get resp.url.query "next" = some "") →
      ∃ r, handle_unexpected_redirect_to_login_page cfg resp = Except.ok [Effect.req r] ∧
        r.url.path = LOGIN_API_PATH ∧ query_dict_get r.url.query "next" = none) := by
  constructor
  · intro s hs hne
    refine ⟨{ method := Method.POST
              url := { scheme := "http", host := cfg.domain, path := LOGIN_API_PATH,
                       query := [("next", s)] }
              formdata := [("email", cfg.login_email), ("password", cfg.login_password)]
              headers := [("X-CSRFToken", t)]
              callback := Callback.after_login }, ?_, rfl, ?_⟩
    · simp [handle_unexpected_redirect_to_login_page, ht, hs, hne]
    · simp [query_dict_get]
  · intro hcase
    cases hcase with
    | inl hnone =>
      refine ⟨{ method := Method.POST
                url := { scheme := "http", host := cfg.domain, path := LOGIN_API_PATH,
                         query := [] }
                formdata := [("email", cfg.login_email), ("password", cfg.login_password)]
                headers := [("X-CSRFToken", t)]
                callback := Callback.after_login }, ?_, rfl, rfl⟩
      simp [handle_unexpected_redirect_to_login_page, ht, hnone]
    | inr hempty =>
      refine ⟨{ method := Method.POST
                url := { scheme := "http", host := cfg.domain, path := LOGIN_API_PATH,
                         query := [] }
                formdata := [("email", cfg.login_email), ("password", cfg.login_password)]
                headers := [("X-CSRFToken", t)]
                callback := Callback.after_login }, ?_, rfl, rfl⟩
      simp [handle_unexpected_redirect_to_login_page, ht, hempty]

/-- C2 amended witness: on the concrete login-redirect response the
recovered non-empty `next` value reappears as the `next` parameter of
the emitted login API request. -/
theorem reauth_next_param_threading_witness :
    get_csrf_token resp_login_tok.set_cookie_headers = Except.ok (some "TOKEN1") ∧
    query_dict_get resp_login_tok.url.query "next" =
      some "/courses/course-v1:edX+Test101+course/courseware" ∧
    (∃ r, handle_unexpected_redirect_to_login_page default_config resp_login_tok =
        Except.ok [Effect.req r] ∧ r.url.path = LOGIN_API_PATH ∧
        query_dict_get r.url.query "next" =
          some "/courses/course-v1:edX+Test101+course/courseware") :=
  ⟨by decide, by decide,
   (reauth_next_param_threading default_config resp_login_tok (some "TOKEN1") (by decide)).1
     "/courses/course-v1:edX+Test101+course/courseware" (by decide) (by decide)⟩

/-- C3 counterexample: the claim says re-authentication emits one GET
that fetches a fresh CSRF token at the login page, whose callback then
submits the login form; but on the concrete login-redirect response the
single emitted request is a form POST to the login API path with
callback `after_login` (a POST is not a GET, and the login API path is
not the login page path) — there is no separate CSRF-fetch step, the
token being taken from the redirect response itself. -/
theorem reauth_emits_login_post_not_csrf_get :
    (handle_unexpected_redirect_to_login_page default_config resp_login_tok).map
      (fun es => (effect_requests es).map (fun r => (r.method, r.url.path, r.callback))) =
      Except.ok [(Method.POST, LOGIN_API_PATH, Callback.after_login)] ∧
    Method.POST ≠ Method.GET ∧ LOGIN_API_PATH ≠ LOGIN_HTML_PATH := by decide

/-- C3 amended: on detecting an unexpected redirect to the login page,
the re-authentication operation emits exactly one request: a form POST
of the credentials directly to the login API URL on the configured
domain, carrying an `X-CSRFToken` header whose value is extracted
afresh from the redirect response itself (so the token is re-extracted
on every re-authentication attempt, never cached), with callback
`after_login`; there is no CSRF-fetch GET step in the re-auth path. -/
theorem reauth_single_post_with_response_token (cfg : Config) (resp : Response)
    (t : Option String) (ht : get_csrf_token resp.set_cookie_headers = Except.ok t) :
    ∃ r, handle_unexpected_redirect_to_login_page cfg resp = Except.ok [Effect.req r] ∧
      r.method = Method.POST ∧ r.url.host = cfg.domain ∧ r.url.path = LOGIN_API_PATH ∧
      r.headers = [("X-CSRFToken", t)] ∧
      r.formdata = [("email", cfg.login_email), ("password", cfg.login_password)] ∧
      r.callback = Callback.after_login := by
  cases hq : query_dict_get resp.url.query "next" with
  | none =>
    refine ⟨{ method := Method.POST
              url := { scheme := "http", host := cfg.domain, path := LOGIN_API_PATH,
                       query := [] }
              formdata := [("email", cfg.login_email), ("password", cfg.login_password)]
              headers := [("X-CSRFToken", t)]
              callback := Callback.after_login }, ?_, rfl, rfl, rfl, rfl, rfl, rfl⟩
    simp [handle_unexpected_redirect_to_login_page, ht, hq]
  | some s =>
    by_cases hs : s = ""
    · refine ⟨{ method := Method.POST
                url := { scheme := "http", host := cfg.domain, path := LOGIN_API_PATH,
                         query := [] }
                formdata := [("email", cfg.login_email), ("password", cfg.login_password)]
                headers := [("X-CSRFToken", t)]
                callback := Callback.after_login }, ?_, rfl, rfl, rfl, rfl, rfl, rfl⟩
      simp [handle_unexpected_redirect_to_login_page, ht, hq, hs]
    · refine ⟨{ method := Method.POST
                url := { scheme := "http", host := cfg.domain, path := LOGIN_API_PATH,
                         query := [("next", s)] }
                formdata := [("email", cfg.login_email), ("password", cfg.login_password)]
                headers := [("X-CSRFToken", t)]
                callback := Callback.after_login }, ?_, rfl, rfl, rfl, rfl, rfl, rfl⟩
      simp [handle_unexpected_redirect_to_login_page, ht, hq, hs]

/-- C3 amended witness: instantiated on the concrete login-redirect
response, whose freshly extracted token `TOKEN1` rides the single
emitted login POST. -/
theorem reauth_single_post_with_response_token_witness :
    get_csrf_token resp_login_tok.set_cookie_headers = Except.ok (some "TOKEN1") ∧
    (∃ r, handle_unexpected_redirect_to_login_page default_config resp_login_tok =
        Except.ok [Effect.req r] ∧
      r.method = Method.POST ∧ r.url.host = default_config.domain ∧
      r.url.path = LOGIN_API_PATH ∧
      r.headers = [("X-CSRFToken", some "TOKEN1")] ∧
      r.formdata = [("email", default_config.login_email),
                    ("password", default_config.login_password)] ∧
      r.callback = Callback.after_login) :=
  ⟨by decide,
   reauth_single_post_with_response_token default_config resp_login_tok (some "TOKEN1")
     (by decide)⟩

/-- C4 counterexample: the claim says a re-authentication login
response containing the failure phrase is terminal and logged; but
`after_login` performs no failure-phrase check and no logging — on the
concrete failed re-auth login response (body contains the phrase, URL
path is the login API path) it emits exactly one Page Record and
nothing else: no error log and no halt. -/
theorem after_login_ignores_failure_phrase :
    str_contains resp_reauth_fail.body LOGIN_FAILURE_MSG = true ∧
    after_login default_config resp_reauth_fail =
      Except.ok [Effect.item (parse_item_record resp_reauth_fail)] := by decide

/-- C4 amended: `after_login` delegates every re-authentication login
response to `parse_item` without inspecting the body; for any response
whose path is not the login page path — in particular a failed re-auth
login response — it emits exactly one Page Record, no error log and no
request, regardless of whether the body contains the failure phrase. -/
theorem after_login_no_failure_check (cfg : Config) (resp : Response)
    (h : resp.url.path ≠ LOGIN_HTML_PATH) :
    after_login cfg resp = Except.ok [Effect.item (parse_item_record resp)] ∧
    (after_login cfg resp).map effect_error_logs = Except.ok [] ∧
    (after_login cfg resp).map effect_requests = Except.ok [] := by
  have hmain : after_login cfg resp = Except.ok [Effect.item (parse_item_record resp)] := by
    simp [after_login, parse_item, h]
    rfl
  exact ⟨hmain, by rw [hmain]; rfl, by rw [hmain]; rfl⟩

/-- C4 amended witness: instantiated on the concrete failed re-auth
login response, whose body does contain the failure phrase. -/
theorem after_login_no_failure_check_witness :
    resp_reauth_fail.url.path ≠ LOGIN_HTML_PATH ∧
    str_contains resp_reauth_fail.body LOGIN_FAILURE_MSG = true ∧
    after_login default_config resp_reauth_fail =
      Except.ok [Effect.item (parse_item_record resp_reauth_fail)] ∧
    (after_login default_config resp_reauth_fail).map effect_error_logs = Except.ok [] :=
  ⟨by decide, by decide,
   (after_login_no_failure_check default_config resp_reauth_fail (by decide)).1,
   (after_login_no_failure_check default_config resp_reauth_fail (by decide)).2.1⟩
